import Mathlib

/-!
Formal model of the WebShot screenshot tool (web_screenshot.py).

The source drives a headless browser through Playwright.  We embed its
decision logic as pure Lean functions over an explicit trace of browser
operations (`Event`):

* `isValidUrl` models `WebScreenShot._is_valid_url`, including the
  scheme/netloc extraction performed by CPython's `urllib.parse.urlsplit`
  on the inputs the validator inspects.
* `flattenConfig` / `resolveConfig` model `ScreenShotConfig._flatten_config`
  and the default merge performed by `ScreenShotConfig.from_yaml`.
* `capture` and `capture_multiple_pages` model the two public capture
  operations.  The browser is an oracle (`PageEnv`) supplying the values of
  the JavaScript measurements the code evaluates; exceptions thrown by
  browser operations are modelled by an optional failure index (`failAt`)
  naming the first browser operation that raises; the incremental scroll
  loop of `_scroll_and_load` is fuel-bounded, with `none` denoting a run
  whose scroll loop does not terminate within the fuel.
-/

namespace WebShot

/-! ### URL parsing, from CPython urllib.parse.urlsplit

Modelling notes: `urlsplit` first strips leading/trailing C0-control/space
characters and removes tab/CR/LF, then splits off a `scheme` (longest prefix
of scheme characters before the first colon, lower-cased) and, when the
remainder starts with `//`, a `netloc` running up to the next `/`, `?` or
`#`.  A netloc containing `[` without `]` (or vice versa) raises
`ValueError`, modelled as `none`; the deeper validation of a matched
bracketed IPv6/IPvFuture host performed by newer CPython versions is not
modelled (it is version-dependent and none of the claims exercise it). -/

def c0OrSpace (c : Char) : Bool := c.toNat ≤ 32

def removedByte (c : Char) : Bool := c = '\t' || c = '\r' || c = '\n'

def sanitize (s : List Char) : List Char :=
  (((s.dropWhile c0OrSpace).reverse.dropWhile c0OrSpace).reverse).filter
    (fun c => !(removedByte c))

def schemeChar (c : Char) : Bool :=
  c.isAlpha || c.isDigit || c = '+' || c = '-' || c = '.'

/-- Scheme extraction of `urlsplit`: the part before the first `:` is a
scheme when it is non-empty, starts with an ASCII letter and consists of
scheme characters only; it is returned lower-cased. -/
def splitScheme (u : List Char) : Option (List Char) × List Char :=
  let pre := u.takeWhile (fun c => c != ':')
  if pre.length < u.length ∧ pre ≠ [] ∧ (pre.headD 'a').isAlpha = true ∧
      pre.all schemeChar = true then
    (some (pre.map Char.toLower), u.drop (pre.length + 1))
  else (none, u)

def notDelim (c : Char) : Bool := !(c = '/' || c = '?' || c = '#')

structure UrlParts where
  scheme : List Char
  netloc : List Char
deriving DecidableEq

/-- `urlsplit` restricted to the fields `_is_valid_url` reads; `none`
models the `ValueError` raised on a mismatched `[`/`]` in the netloc. -/
def urlsplitCore (s : List Char) : Option UrlParts :=
  let u := sanitize s
  let p := splitScheme u
  let rest := p.2
  let netloc := if rest.take 2 = ['/', '/'] then (rest.drop 2).takeWhile notDelim else []
  if (('[' ∈ netloc) ↔ (']' ∈ netloc)) then some ⟨p.1.getD [], netloc⟩ else none

/-- The part of the netloc after the last `@` (CPython `netloc.rpartition`). -/
def hostinfoOf (netloc : List Char) : List Char :=
  (netloc.reverse.takeWhile (fun c => c != '@')).reverse

/-- The host component of a netloc, as computed by CPython's
`SplitResult.hostname`: strip userinfo, then either the bracketed part or
everything before the port colon. -/
def hostOf (netloc : List Char) : List Char :=
  let hi := hostinfoOf netloc
  if '[' ∈ hi then ((hi.dropWhile (fun c => c != '[')).drop 1).takeWhile (fun c => c != ']')
  else hi.takeWhile (fun c => c != ':')

/-- The host component of a URL (empty list models CPython's `None`). -/
def urlHost (s : String) : List Char :=
  match urlsplitCore s.data with
  | none => []
  | some p => (hostOf p.netloc).map Char.toLower

def urlSchemeOf (s : String) : List Char :=
  match urlsplitCore s.data with
  | none => []
  | some p => p.scheme

def httpChars : List Char := "http".data

def httpsChars : List Char := "https".data

/-- `WebScreenShot._is_valid_url`: `all([result.scheme, result.netloc])
and result.scheme in ['http', 'https']`, with any parsing exception caught
and turned into `False`. -/
def isValidUrl (s : String) : Bool :=
  match urlsplitCore s.data with
  | none => false
  | some p =>
    if p.scheme ≠ [] ∧ p.netloc ≠ [] ∧ (p.scheme = httpChars ∨ p.scheme = httpsChars) then
      true
    else false

/-! ### Configuration flattening, from ScreenShotConfig

`YVal` models the YAML scalar values that can appear in a config document
(floats are represented as rationals); a document is a two-level nested
mapping, exactly the shape `_flatten_config` consumes.  `dataclassDefault`
records the field defaults declared on the `ScreenShotConfig` dataclass;
`flattenConfig` reproduces `_flatten_config` including its per-key `get`
defaults; `resolveConfig` is the merge performed by `from_yaml` (every
flattened key is a dataclass field, so the filter step is the identity). -/

inductive YVal where
  | i (n : Int)
  | b (bo : Bool)
  | s (st : String)
  | f (r : Rat)
  | null
deriving DecidableEq

abbrev YSection := List (String × YVal)

def ysGet (sec : YSection) (key : String) (dflt : YVal) : YVal :=
  match sec.lookup key with
  | some v => v
  | none => dflt

def flattenConfig (doc : List (String × YSection)) : List (String × YVal) :=
  (match doc.lookup ("browser") with
   | none => []
   | some sec => [(("headless"), ysGet sec ("headless") (YVal.i 60000))]) ++
  (match doc.lookup ("timeouts") with
   | none => []
   | some sec =>
     [(("navigation_timeout"), ysGet sec ("navigation_timeout") (YVal.i 60000)),
      (("action_timeout"), ysGet sec ("action_timeout") (YVal.i 60000)),
      (("final_wait"), ysGet sec ("final_wait") (YVal.i 5000))]) ++
  (match doc.lookup ("scroll") with
   | none => []
   | some sec => [(("scroll_delay"), ysGet sec ("delay") (YVal.f 1))]) ++
  (match doc.lookup ("throttling") with
   | none => []
   | some sec =>
     [(("page_delay"), ysGet sec ("page_delay") (YVal.f 2)),
      (("request_delay"), ysGet sec ("request_delay") (YVal.f (1/2))),
      (("enable_request_throttling"), ysGet sec ("enable_request_throttling") (YVal.b true))]) ++
  (match doc.lookup ("viewport") with
   | none => []
   | some sec =>
     [(("viewport_width"), ysGet sec ("width") YVal.null),
      (("viewport_height"), ysGet sec ("height") YVal.null),
      (("viewport_auto_adjust"), ysGet sec ("auto_adjust") (YVal.b false)),
      (("max_viewport_width"), ysGet sec ("max_width") (YVal.i 7680)),
      (("max_viewport_height"), ysGet sec ("max_height") (YVal.i 43200))]) ++
  (match doc.lookup ("logging") with
   | none => []
   | some sec => [(("verbose"), ysGet sec ("verbose") (YVal.b false))])

/-- The field defaults declared on the `ScreenShotConfig` dataclass. -/
def dataclassDefault (key : String) : Option YVal :=
  if key = "navigation_timeout" then some (YVal.i 60000)
  else if key = "action_timeout" then some (YVal.i 60000)
  else if key = "final_wait" then some (YVal.i 5000)
  else if key = "scroll_delay" then some (YVal.f 1)
  else if key = "page_delay" then some (YVal.f 2)
  else if key = "request_delay" then some (YVal.f (1/2))
  else if key = "enable_request_throttling" then some (YVal.b false)
  else if key = "viewport_width" then some YVal.null
  else if key = "viewport_height" then some YVal.null
  else if key = "viewport_auto_adjust" then some (YVal.b false)
  else if key = "max_viewport_width" then some (YVal.i 7680)
  else if key = "max_viewport_height" then some (YVal.i 43200)
  else if key = "headless" then some (YVal.b true)
  else if key = "verbose" then some (YVal.b false)
  else none

/-- The resolved value of a settings field after `from_yaml`: a key present
in the flattened document overrides, an absent key falls back to the
dataclass default. -/
def resolveConfig (doc : List (String × YSection)) (key : String) : Option YVal :=
  match (flattenConfig doc).lookup key with
  | some v => some v
  | none => dataclassDefault key

/-! ### Browser events and the capture environment -/

/-- One observable browser/filesystem operation performed by the code.
Durations mirror the source's units: timeouts in milliseconds (`Nat`),
sleeps in seconds (`Rat`, modelling the Python floats). -/
inductive Event where
  | mkdir (dir : String)
  | createBlank (path : String) (width height : Nat) (color : String)
  | newPage (viewport : Option (Option Nat × Option Nat))
  | setTimeouts (navMs actMs : Nat)
  | installThrottle
  | goto (url : String)
  | waitNetworkIdle
  | evalEagerImages
  | scrollTo (y : Nat)
  | sleep (seconds : Rat)
  | waitTimeout (ms : Nat)
  | dismissPopups
  | setViewportSize (width height : Nat)
  | reload
  | screenshot (path : String) (fullPage : Bool)
  | closePage
deriving DecidableEq

/-- `ScreenShotConfig`, with the dataclass defaults. -/
structure Config where
  navigation_timeout : Nat := 60000
  action_timeout : Nat := 60000
  final_wait : Nat := 5000
  scroll_delay : Rat := 1
  page_delay : Rat := 2
  request_delay : Rat := 1/2
  enable_request_throttling : Bool := false
  viewport_width : Option Nat := none
  viewport_height : Option Nat := none
  viewport_auto_adjust : Bool := false
  max_viewport_width : Nat := 7680
  max_viewport_height : Nat := 43200
  headless : Bool := true
  verbose : Bool := false
deriving DecidableEq

/-- The browser-side oracle: `heights i` is the value returned by the
`i`-th evaluation of `document.body.scrollHeight`; `innerHeight`,
`docScrollWidth` and `docScrollHeight` are the other JavaScript
measurements the code takes (constant per run, since none of the modelled
paths resizes the viewport before reading them); `mkdirOk` tells whether
creating the output directory succeeds. -/
structure PageEnv where
  innerHeight : Nat
  heights : Nat → Nat
  docScrollWidth : Nat
  docScrollHeight : Nat
  mkdirOk : Bool

/-! ### The incremental scroll loop of `_scroll_and_load` -/

/-- The `while scroll_position < total_height` loop: advance by one
viewport height, scroll, sleep `scroll_delay`, re-measure the document
height.  `fuel` bounds the number of iterations; `pos` is the current
scroll offset and `i` the index of the most recent height measurement.
Returns the emitted events, the final offset and the index of the last
measurement, or `none` when the fuel is exhausted with the guard still
true (a run of the source that has not terminated yet). -/
def scrollLoop (heights : Nat → Nat) (vh : Nat) (sd : Rat) :
    Nat → Nat → Nat → Option (List Event × Nat × Nat)
  | 0, pos, i => if pos < heights i then none else some ([], pos, i)
  | fuel + 1, pos, i =>
    if pos < heights i then
      match scrollLoop heights vh sd fuel (pos + vh) (i + 1) with
      | none => none
      | some (evs, p, last) =>
        some (Event.scrollTo (pos + vh) :: Event.sleep sd :: evs, p, last)
    else some ([], pos, i)

/-- `_scroll_and_load`: force lazy images eager, then run the scroll loop
starting from offset 0 with the initial height measurement.  Returns the
events and the index of the next fresh height measurement. -/
def scrollAndLoad (cfg : Config) (env : PageEnv) (fuel : Nat) :
    Option (List Event × Nat) :=
  match scrollLoop env.heights env.innerHeight cfg.scroll_delay fuel 0 0 with
  | none => none
  | some (evs, _, last) => some (Event.evalEagerImages :: evs, last + 1)

/-! ### Page setup and the single-capture plan -/

/-- The viewport argument passed to `browser.new_page` by `_setup_page`:
the configured dimensions unless auto-adjust is requested; an empty dict
becomes `None`. -/
def viewportArg (cfg : Config) (autoAdj : Bool) : Option (Option Nat × Option Nat) :=
  if autoAdj then none
  else match cfg.viewport_width, cfg.viewport_height with
    | none, none => none
    | w, h => some (w, h)

/-- The browser operations of `_setup_page`, in order. -/
def setupPlan (cfg : Config) (autoAdj : Bool) : List Event :=
  [Event.newPage (viewportArg cfg autoAdj),
   Event.setTimeouts cfg.navigation_timeout cfg.action_timeout] ++
  (if cfg.enable_request_throttling then [Event.installThrottle] else [])

/-- Number of operations in `_setup_page`; the `page` local of the caller
is only assigned once all of them have succeeded, so the `finally` block
closes the page exactly when at least this many operations ran. -/
def setupLen (cfg : Config) : Nat :=
  if cfg.enable_request_throttling then 3 else 2

/-- `_adjust_viewport_to_page`: measure the document extent, clamp to the
configured maxima, resize, reload, re-wait for network idle. -/
def adjustPlan (cfg : Config) (env : PageEnv) : List Event :=
  [Event.setViewportSize (min env.docScrollWidth cfg.max_viewport_width)
     (min env.docScrollHeight cfg.max_viewport_height),
   Event.reload, Event.waitNetworkIdle]

/-- The stabilization phase of `capture`: viewport adjustment under
auto-adjust, the scroll loop otherwise. -/
def stabilizePlan (cfg : Config) (env : PageEnv) (fuel : Nat) (autoAdj : Bool) :
    Option (List Event) :=
  if autoAdj then some (adjustPlan cfg env)
  else match scrollAndLoad cfg env fuel with
    | none => none
    | some (evs, _) => some evs

/-- All fallible browser operations of a single `capture` run on a valid
URL, in source order: setup, navigation, initial network-idle wait,
stabilization, final network-idle wait plus `final_wait`, screenshot
(full-page exactly when auto-adjust is off). -/
def capturePlanBody (cfg : Config) (env : PageEnv) (fuel : Nat) (autoAdj : Bool)
    (url path : String) : Option (List Event) :=
  match stabilizePlan cfg env fuel autoAdj with
  | none => none
  | some st =>
    some (setupPlan cfg autoAdj ++ [Event.goto url, Event.waitNetworkIdle] ++ st ++
      [Event.waitNetworkIdle, Event.waitTimeout cfg.final_wait,
       Event.screenshot path (!autoAdj)])

/-- Execute a plan with an injected failure: operation `k` (0-based)
raises, so exactly the operations before it run.  `none` injects no
failure.  An out-of-range index never fires. -/
def runFail (failAt : Option Nat) (plan : List Event) :
    Except (List Event) (List Event) :=
  match failAt with
  | none => Except.ok plan
  | some k => if k < plan.length then Except.error (plan.take k) else Except.ok plan

def whiteColor : String := "white"

/-- `WebScreenShot.capture`.  The result is `none` when the scroll loop
exceeds the fuel (a non-terminating source run), otherwise the boolean
result together with the trace of performed operations.  On an invalid URL
the blank image is written before any browser contact; on an injected
failure the exception is caught, the blank image written, and the page
closed when it had been assigned. -/
def capture (cfg : Config) (env : PageEnv) (fuel : Nat) (failAt : Option Nat)
    (url path : String) (autoAdj : Option Bool) : Option (Bool × List Event) :=
  if isValidUrl url then
    let uaa := autoAdj.getD cfg.viewport_auto_adjust
    match capturePlanBody cfg env fuel uaa url path with
    | none => none
    | some plan =>
      match runFail failAt plan with
      | Except.ok tr => some (true, tr ++ [Event.closePage])
      | Except.error tr =>
        some (false, tr ++ [Event.createBlank path 800 600 whiteColor] ++
          (if setupLen cfg ≤ tr.length then [Event.closePage] else []))
  else some (false, [Event.createBlank path 800 600 whiteColor])

/-! ### Multi-page capture -/

/-- `str(Path(output_dir) / f"page_{k}.png")`. -/
def pageName (dir : String) (k : Nat) : String :=
  dir ++ "/page_" ++ toString k ++ ".png"

/-- The per-page operations of the `for page_num in range(num_pages)` loop
of `capture_multiple_pages`: a pacing sleep before every page but the
first, scroll to `k * viewport_height`, wait network-idle, dismiss popups,
wait `final_wait`, capture the viewport to `page_{k+1}.png`. -/
def pageChunk (cfg : Config) (vh : Nat) (dir : String) (k : Nat) : List Event :=
  (if 0 < k then [Event.sleep cfg.page_delay] else []) ++
  [Event.scrollTo (k * vh), Event.waitNetworkIdle, Event.dismissPopups,
   Event.waitTimeout cfg.final_wait,
   Event.screenshot (pageName dir (k + 1)) false]

def multiPageLoop (cfg : Config) (vh : Nat) (dir : String) (n : Nat) : List Event :=
  ((List.range n).map (pageChunk cfg vh dir)).flatten

/-- The operations of `capture_multiple_pages` before the page loop:
setup (never auto-adjusted), navigation, network-idle wait, scroll loop.
Also returns the index of the height re-measurement taken afterwards. -/
def multiPagePre (cfg : Config) (env : PageEnv) (fuel : Nat) (url : String) :
    Option (List Event × Nat) :=
  match scrollAndLoad cfg env fuel with
  | none => none
  | some (evs, j) =>
    some (setupPlan cfg false ++ [Event.goto url, Event.waitNetworkIdle] ++ evs, j)

/-- `WebScreenShot.capture_multiple_pages`.  Directory creation failure
returns `False` with no image written; an invalid URL writes a single
blank `page_1` image; a measured `window.innerHeight` of zero makes the
`num_pages` division raise `ZeroDivisionError`, caught as a failure with
no blank image; otherwise `num_pages = (total + vh - 1) // vh` viewport
captures are taken, with the same injected-failure semantics as
`capture` but no blank-image substitution on error. -/
def capture_multiple_pages (cfg : Config) (env : PageEnv) (fuel : Nat)
    (failAt : Option Nat) (url dir : String) : Option (Bool × List Event) :=
  if env.mkdirOk then
    if isValidUrl url then
      match multiPagePre cfg env fuel url with
      | none => none
      | some (pre, j) =>
        let th := env.heights j
        let vh := env.innerHeight
        if vh = 0 then
          match runFail failAt pre with
          | Except.ok tr => some (false, Event.mkdir dir :: (tr ++ [Event.closePage]))
          | Except.error tr =>
            some (false, Event.mkdir dir ::
              (tr ++ (if setupLen cfg ≤ tr.length then [Event.closePage] else [])))
        else
          let n := (th + vh - 1) / vh
          match runFail failAt (pre ++ multiPageLoop cfg vh dir n) with
          | Except.ok tr => some (true, Event.mkdir dir :: (tr ++ [Event.closePage]))
          | Except.error tr =>
            some (false, Event.mkdir dir ::
              (tr ++ (if setupLen cfg ≤ tr.length then [Event.closePage] else [])))
    else
      some (false, [Event.mkdir dir,
        Event.createBlank (pageName dir 1) 800 600 whiteColor])
  else some (false, [])

/-! ### Trace observations -/

def shotPath : Event → Option String
  | Event.screenshot p _ => some p
  | _ => none

/-- The paths of the screenshot files written in a trace, in order. -/
def screenshotPaths (tr : List Event) : List String := tr.filterMap shotPath

def isBlankEvent : Event → Bool
  | Event.createBlank _ _ _ _ => true
  | _ => false

/-- Events emitted by the scroll loop proper. -/
def scrollish : Event → Bool
  | Event.scrollTo _ => true
  | Event.sleep _ => true
  | _ => false

def isPacingSleep (d : Rat) : Event → Bool
  | Event.sleep r => decide (r = d)
  | _ => false

/-- Number of pacing sleeps of duration `d` in a trace. -/
def countPacing (d : Rat) (tr : List Event) : Nat := tr.countP (isPacingSleep d)

/-- The full plan of a single `capture` run under auto-adjust. -/
def autoPlan (cfg : Config) (env : PageEnv) (url path : String) : List Event :=
  setupPlan cfg true ++ [Event.goto url, Event.waitNetworkIdle] ++ adjustPlan cfg env ++
  [Event.waitNetworkIdle, Event.waitTimeout cfg.final_wait, Event.screenshot path false]

/-! ### Claim-level conclusion predicates -/

/-- What C1 asserts of a completed multi-page capture: the full trace,
`num_pages` being the ceiling of `total_height / viewport_height`, the
output files being exactly `page_1.png .. page_n.png` in order, and a
pacing sleep before every page except the first. -/
def paginationSpec (cfg : Config) (env : PageEnv) (fuel : Nat) (url dir : String)
    (evs : List Event) (j : Nat) : Prop :=
  capture_multiple_pages cfg env fuel none url dir =
      some (true, Event.mkdir dir ::
        (setupPlan cfg false ++ [Event.goto url, Event.waitNetworkIdle] ++ evs ++
          multiPageLoop cfg env.innerHeight dir
            ((env.heights j + env.innerHeight - 1) / env.innerHeight) ++
          [Event.closePage]))
  ∧ env.heights j ≤
      ((env.heights j + env.innerHeight - 1) / env.innerHeight) * env.innerHeight
  ∧ (env.heights j = 0 ∨
      (((env.heights j + env.innerHeight - 1) / env.innerHeight) - 1) * env.innerHeight <
        env.heights j)
  ∧ screenshotPaths (multiPageLoop cfg env.innerHeight dir
        ((env.heights j + env.innerHeight - 1) / env.innerHeight)) =
      (List.range ((env.heights j + env.innerHeight - 1) / env.innerHeight)).map
        (fun i => pageName dir (i + 1))
  ∧ screenshotPaths (setupPlan cfg false ++ [Event.goto url, Event.waitNetworkIdle] ++ evs) = []
  ∧ countPacing cfg.page_delay (multiPageLoop cfg env.innerHeight dir
        ((env.heights j + env.innerHeight - 1) / env.innerHeight)) =
      ((env.heights j + env.innerHeight - 1) / env.innerHeight) - 1
  ∧ pageChunk cfg env.innerHeight dir 0 =
      [Event.scrollTo (0 * env.innerHeight), Event.waitNetworkIdle, Event.dismissPopups,
       Event.waitTimeout cfg.final_wait, Event.screenshot (pageName dir 1) false]
  ∧ ∀ k, 0 < k → pageChunk cfg env.innerHeight dir k =
      Event.sleep cfg.page_delay :: Event.scrollTo (k * env.innerHeight) ::
        Event.waitNetworkIdle :: Event.dismissPopups :: Event.waitTimeout cfg.final_wait ::
        [Event.screenshot (pageName dir (k + 1)) false]

/-- What C2 asserts: under a resolved auto-adjust mode the capture issued
is viewport-only with the clamped viewport applied before it (and no run,
failing or not, ever issues a full-document capture); without auto-adjust
the capture issued is full-document. -/
def autoAdjustSpec (cfg : Config) (env : PageEnv) (fuel : Nat) (failAt : Option Nat)
    (url path : String) (autoAdj : Option Bool) : Prop :=
  (autoAdj.getD cfg.viewport_auto_adjust = true →
    (capture cfg env fuel none url path autoAdj =
      some (true, setupPlan cfg true ++
        [Event.goto url, Event.waitNetworkIdle,
         Event.setViewportSize (min env.docScrollWidth cfg.max_viewport_width)
           (min env.docScrollHeight cfg.max_viewport_height),
         Event.reload, Event.waitNetworkIdle, Event.waitNetworkIdle,
         Event.waitTimeout cfg.final_wait, Event.screenshot path false, Event.closePage]))
    ∧ ∀ b tr, capture cfg env fuel failAt url path autoAdj = some (b, tr) →
        ∀ q, Event.screenshot q true ∉ tr)
  ∧ (autoAdj.getD cfg.viewport_auto_adjust = false →
      ∀ evs j, scrollAndLoad cfg env fuel = some (evs, j) →
        capture cfg env fuel none url path autoAdj =
          some (true, setupPlan cfg false ++ [Event.goto url, Event.waitNetworkIdle] ++ evs ++
            [Event.waitNetworkIdle, Event.waitTimeout cfg.final_wait,
             Event.screenshot path true, Event.closePage]))

/-- What C5 asserts: in multi-page mode a blank image appears only on an
invalid URL (a single blank `page_1`); any exception on a valid URL aborts
with `false`, no blank image anywhere in the trace, and the screenshots
already taken a prefix of the planned `page_1..page_n` outputs (nothing is
deleted or synthesized). -/
def multiPageFailSpec (cfg : Config) (env : PageEnv) (fuel : Nat) (url dir : String) : Prop :=
  (∀ failAt, isValidUrl url = false → env.mkdirOk = true →
    capture_multiple_pages cfg env fuel failAt url dir =
      some (false, [Event.mkdir dir,
        Event.createBlank (pageName dir 1) 800 600 whiteColor]))
  ∧ (∀ pre j k, env.mkdirOk = true → isValidUrl url = true →
      multiPagePre cfg env fuel url = some (pre, j) → 0 < env.innerHeight →
      k < (pre ++ multiPageLoop cfg env.innerHeight dir
            ((env.heights j + env.innerHeight - 1) / env.innerHeight)).length →
      ∃ tr, capture_multiple_pages cfg env fuel (some k) url dir = some (false, tr)
        ∧ (∀ e ∈ tr, isBlankEvent e = false)
        ∧ screenshotPaths tr <+:
            (List.range ((env.heights j + env.innerHeight - 1) / env.innerHeight)).map
              (fun i => pageName dir (i + 1)))

/-! ### Concrete instances used by the witnesses -/

def defCfg : Config := {}

def exUrl : String := "http://example.com"

def exDir : String := "shots"

def exPath : String := "shot.png"

def badUrl : String := "not-a-url"

def atUrl : String := "http://@"

/-- A static page of height 2500 with a 1000-pixel viewport (the worked
example of the specification). -/
def wEnv : PageEnv :=
  { innerHeight := 1000, heights := fun _ => 2500, docScrollWidth := 900,
    docScrollHeight := 50000, mkdirOk := true }

/-- A page whose measured document height is zero. -/
def zEnv : PageEnv :=
  { innerHeight := 1000, heights := fun _ => 0, docScrollWidth := 640,
    docScrollHeight := 480, mkdirOk := true }

def c1evs : List Event :=
  [Event.evalEagerImages, Event.scrollTo 1000, Event.sleep 1, Event.scrollTo 2000,
   Event.sleep 1, Event.scrollTo 3000, Event.sleep 1]

def c3plan : List Event :=
  [Event.newPage none, Event.setTimeouts 60000 60000, Event.goto exUrl,
   Event.waitNetworkIdle, Event.setViewportSize 900 43200, Event.reload,
   Event.waitNetworkIdle, Event.waitNetworkIdle, Event.waitTimeout 5000,
   Event.screenshot exPath false]

def c5pre : List Event :=
  [Event.newPage none, Event.setTimeouts 60000 60000, Event.goto exUrl,
   Event.waitNetworkIdle] ++ c1evs

def zpre : List Event :=
  [Event.newPage none, Event.setTimeouts 60000 60000, Event.goto exUrl,
   Event.waitNetworkIdle, Event.evalEagerImages]

/-- A document height oscillating among the bounded values 4, 5, 6. -/
def oscHeights (i : Nat) : Nat := 4 + i % 3

/-! ### Helper lemmas -/

theorem runFail_ok_eq (failAt : Option Nat) (plan l : List Event)
    (h : runFail failAt plan = Except.ok l) : l = plan := by
  cases failAt with
  | none => exact (Except.ok.inj h).symm
  | some k =>
    simp only [runFail] at h
    split at h
    · exact Except.noConfusion h
    · exact (Except.ok.inj h).symm

theorem runFail_error_take (failAt : Option Nat) (plan l : List Event)
    (h : runFail failAt plan = Except.error l) : ∃ k, l = plan.take k := by
  cases failAt with
  | none => exact Except.noConfusion h
  | some k =>
    simp only [runFail] at h
    split at h
    · exact ⟨k, (Except.error.inj h).symm⟩
    · exact Except.noConfusion h

theorem scrollLoop_scrollish (heights : Nat → Nat) (vh : Nat) (sd : Rat) :
    ∀ fuel pos i evs p last,
      scrollLoop heights vh sd fuel pos i = some (evs, p, last) →
      ∀ e ∈ evs, scrollish e = true := by
  intro fuel
  induction fuel with
  | zero =>
    intro pos i evs p last h
    unfold scrollLoop at h
    split at h
    · cases h
    · injection h with h
      injection h with h1 h2
      subst h1
      intro e he
      cases he
  | succ m ih =>
    intro pos i evs p last h
    unfold scrollLoop at h
    split at h
    · cases hrec : scrollLoop heights vh sd m (pos + vh) (i + 1) with
      | none => rw [hrec] at h; cases h
      | some val =>
        obtain ⟨evs', p', last'⟩ := val
        rw [hrec] at h
        injection h with h
        injection h with h1 h2
        subst h1
        intro e he
        simp only [List.mem_cons] at he
        rcases he with rfl | rfl | he
        · rfl
        · rfl
        · exact ih (pos + vh) (i + 1) evs' p' last' hrec e he
    · injection h with h
      injection h with h1 h2
      subst h1
      intro e he
      cases he

theorem scrollish_shotPath (e : Event) (h : scrollish e = true) : shotPath e = none := by
  cases e <;> simp_all [scrollish, shotPath]

theorem scrollish_not_blank (e : Event) (h : scrollish e = true) : isBlankEvent e = false := by
  cases e <;> simp_all [scrollish, isBlankEvent]

theorem scrollAndLoad_events (cfg : Config) (env : PageEnv) (fuel : Nat)
    (evs : List Event) (j : Nat) (h : scrollAndLoad cfg env fuel = some (evs, j)) :
    ∀ e ∈ evs, e = Event.evalEagerImages ∨ scrollish e = true := by
  unfold scrollAndLoad at h
  cases hrec : scrollLoop env.heights env.innerHeight cfg.scroll_delay fuel 0 0 with
  | none => rw [hrec] at h; cases h
  | some val =>
    obtain ⟨evs', p', last'⟩ := val
    rw [hrec] at h
    injection h with h
    injection h with h1 h2
    subst h1
    intro e he
    simp only [List.mem_cons] at he
    rcases he with rfl | he
    · exact Or.inl rfl
    · exact Or.inr (scrollLoop_scrollish env.heights env.innerHeight cfg.scroll_delay
        fuel 0 0 evs' p' last' hrec e he)

theorem scrollAndLoad_no_shots (cfg : Config) (env : PageEnv) (fuel : Nat)
    (evs : List Event) (j : Nat) (h : scrollAndLoad cfg env fuel = some (evs, j)) :
    screenshotPaths evs = [] := by
  rw [screenshotPaths, List.filterMap_eq_nil_iff]
  intro e he
  rcases scrollAndLoad_events cfg env fuel evs j h e he with rfl | hs
  · rfl
  · exact scrollish_shotPath e hs

theorem mem_setupPlan (cfg : Config) (a : Bool) (e : Event) (he : e ∈ setupPlan cfg a) :
    e = Event.newPage (viewportArg cfg a) ∨
    e = Event.setTimeouts cfg.navigation_timeout cfg.action_timeout ∨
    e = Event.installThrottle := by
  unfold setupPlan at he
  by_cases hc : cfg.enable_request_throttling <;> simp [hc] at he <;> tauto

theorem setupPlan_no_shots (cfg : Config) (a : Bool) :
    screenshotPaths (setupPlan cfg a) = [] := by
  rw [screenshotPaths, List.filterMap_eq_nil_iff]
  intro e he
  rcases mem_setupPlan cfg a e he with rfl | rfl | rfl <;> rfl

theorem screenshotPaths_append (l₁ l₂ : List Event) :
    screenshotPaths (l₁ ++ l₂) = screenshotPaths l₁ ++ screenshotPaths l₂ := by
  simp [screenshotPaths]

theorem multiPagePre_parts (cfg : Config) (env : PageEnv) (fuel : Nat) (url : String)
    (pre : List Event) (j : Nat) (h : multiPagePre cfg env fuel url = some (pre, j)) :
    ∃ evs, scrollAndLoad cfg env fuel = some (evs, j) ∧
      pre = setupPlan cfg false ++ [Event.goto url, Event.waitNetworkIdle] ++ evs := by
  unfold multiPagePre at h
  cases hs : scrollAndLoad cfg env fuel with
  | none => rw [hs] at h; cases h
  | some val =>
    obtain ⟨evs, j'⟩ := val
    rw [hs] at h
    injection h with h
    injection h with h1 h2
    refine ⟨evs, ?_, h1.symm⟩
    rw [h2]

theorem multiPagePre_no_shots (cfg : Config) (env : PageEnv) (fuel : Nat) (url : String)
    (pre : List Event) (j : Nat) (h : multiPagePre cfg env fuel url = some (pre, j)) :
    screenshotPaths pre = [] := by
  obtain ⟨evs, hs, rfl⟩ := multiPagePre_parts cfg env fuel url pre j h
  rw [screenshotPaths_append, screenshotPaths_append, setupPlan_no_shots,
    scrollAndLoad_no_shots cfg env fuel evs j hs]
  rfl

theorem multiPagePre_no_blank (cfg : Config) (env : PageEnv) (fuel : Nat) (url : String)
    (pre : List Event) (j : Nat) (h : multiPagePre cfg env fuel url = some (pre, j)) :
    ∀ e ∈ pre, isBlankEvent e = false := by
  obtain ⟨evs, hs, rfl⟩ := multiPagePre_parts cfg env fuel url pre j h
  intro e he
  simp only [List.mem_append] at he
  rcases he with (he | he) | he
  · rcases mem_setupPlan cfg false e he with rfl | rfl | rfl <;> rfl
  · simp only [List.mem_cons] at he
    rcases he with rfl | rfl | he
    · rfl
    · rfl
    · cases he
  · rcases scrollAndLoad_events cfg env fuel evs j hs e he with rfl | hsc
    · rfl
    · exact scrollish_not_blank e hsc

theorem mem_pageChunk (cfg : Config) (vh : Nat) (dir : String) (k : Nat) (e : Event)
    (he : e ∈ pageChunk cfg vh dir k) :
    e = Event.sleep cfg.page_delay ∨ e = Event.scrollTo (k * vh) ∨
    e = Event.waitNetworkIdle ∨ e = Event.dismissPopups ∨
    e = Event.waitTimeout cfg.final_wait ∨
    e = Event.screenshot (pageName dir (k + 1)) false := by
  unfold pageChunk at he
  by_cases hk : 0 < k <;> simp [hk] at he <;> tauto

theorem mem_multiPageLoop (cfg : Config) (vh : Nat) (dir : String) (n : Nat) (e : Event)
    (he : e ∈ multiPageLoop cfg vh dir n) :
    ∃ k, k < n ∧ e ∈ pageChunk cfg vh dir k := by
  unfold multiPageLoop at he
  rw [List.mem_flatten] at he
  obtain ⟨l, hl, hel⟩ := he
  rw [List.mem_map] at hl
  obtain ⟨k, hk, rfl⟩ := hl
  exact ⟨k, List.mem_range.mp hk, hel⟩

theorem multiPageLoop_no_blank (cfg : Config) (vh : Nat) (dir : String) (n : Nat)
    (e : Event) (he : e ∈ multiPageLoop cfg vh dir n) : isBlankEvent e = false := by
  obtain ⟨k, _, hk⟩ := mem_multiPageLoop cfg vh dir n e he
  rcases mem_pageChunk cfg vh dir k e hk with rfl | rfl | rfl | rfl | rfl | rfl <;> rfl

theorem multiPageLoop_succ (cfg : Config) (vh : Nat) (dir : String) (m : Nat) :
    multiPageLoop cfg vh dir (m + 1) = multiPageLoop cfg vh dir m ++ pageChunk cfg vh dir m := by
  rw [multiPageLoop, multiPageLoop, List.range_succ, List.map_append, List.flatten_append]
  simp

theorem screenshotPaths_pageChunk (cfg : Config) (vh : Nat) (dir : String) (k : Nat) :
    screenshotPaths (pageChunk cfg vh dir k) = [pageName dir (k + 1)] := by
  unfold pageChunk screenshotPaths
  by_cases hk : 0 < k <;> simp [hk, shotPath]

theorem screenshotPaths_multiPageLoop (cfg : Config) (vh : Nat) (dir : String) :
    ∀ n, screenshotPaths (multiPageLoop cfg vh dir n) =
      (List.range n).map (fun i => pageName dir (i + 1)) := by
  intro n
  induction n with
  | zero => rfl
  | succ m ih =>
    rw [multiPageLoop_succ, screenshotPaths_append, ih, screenshotPaths_pageChunk,
      List.range_succ, List.map_append]
    simp

theorem countPacing_append (d : Rat) (l₁ l₂ : List Event) :
    countPacing d (l₁ ++ l₂) = countPacing d l₁ + countPacing d l₂ := by
  simp [countPacing, List.countP_append]

theorem countPacing_pageChunk (cfg : Config) (vh : Nat) (dir : String) (k : Nat) :
    countPacing cfg.page_delay (pageChunk cfg vh dir k) = if 0 < k then 1 else 0 := by
  unfold pageChunk countPacing
  by_cases hk : 0 < k <;> simp [hk, List.countP_cons, isPacingSleep]

theorem countPacing_multiPageLoop (cfg : Config) (vh : Nat) (dir : String) :
    ∀ n, countPacing cfg.page_delay (multiPageLoop cfg vh dir n) = n - 1 := by
  intro n
  induction n with
  | zero => rfl
  | succ m ih =>
    rw [multiPageLoop_succ, countPacing_append, ih, countPacing_pageChunk]
    rcases Nat.eq_zero_or_pos m with rfl | hm
    · simp
    · simp only [hm, if_true]
      omega

theorem isPrefix_filterMap {α β : Type} (f : α → Option β) {l₁ l₂ : List α}
    (h : l₁ <+: l₂) : l₁.filterMap f <+: l₂.filterMap f := by
  obtain ⟨t, rfl⟩ := h
  exact ⟨t.filterMap f, by rw [List.filterMap_append]⟩

theorem ceil_le (th vh : Nat) (hvh : 0 < vh) : th ≤ ((th + vh - 1) / vh) * vh := by
  have hdm := Nat.div_add_mod (th + vh - 1) vh
  have hmod : (th + vh - 1) % vh < vh := Nat.mod_lt _ hvh
  rw [Nat.mul_comm]
  omega

theorem ceil_pred_lt (th vh : Nat) (hvh : 0 < vh) (hth : 0 < th) :
    (((th + vh - 1) / vh) - 1) * vh < th := by
  have hdm := Nat.div_add_mod (th + vh - 1) vh
  have hmod : (th + vh - 1) % vh < vh := Nat.mod_lt _ hvh
  rw [Nat.sub_mul, Nat.one_mul, Nat.mul_comm]
  omega

/-- Unfolding of `capture` on a valid URL with a defined plan. -/
theorem capture_eq (cfg : Config) (env : PageEnv) (fuel : Nat) (failAt : Option Nat)
    (url path : String) (autoAdj : Option Bool) (plan : List Event)
    (hv : isValidUrl url = true)
    (hp : capturePlanBody cfg env fuel (autoAdj.getD cfg.viewport_auto_adjust) url path =
      some plan) :
    capture cfg env fuel failAt url path autoAdj =
      match runFail failAt plan with
      | Except.ok tr => some (true, tr ++ [Event.closePage])
      | Except.error tr =>
        some (false, tr ++ [Event.createBlank path 800 600 whiteColor] ++
          (if setupLen cfg ≤ tr.length then [Event.closePage] else [])) := by
  simp [capture, hv, hp]

/-- Unfolding of `capture_multiple_pages` on a valid URL with a defined
pre-plan and a positive viewport height. -/
theorem capture_multiple_pages_eq (cfg : Config) (env : PageEnv) (fuel : Nat)
    (failAt : Option Nat) (url dir : String) (pre : List Event) (j : Nat)
    (hm : env.mkdirOk = true) (hv : isValidUrl url = true)
    (hpre : multiPagePre cfg env fuel url = some (pre, j))
    (hne : env.innerHeight ≠ 0) :
    capture_multiple_pages cfg env fuel failAt url dir =
      match runFail failAt (pre ++ multiPageLoop cfg env.innerHeight dir
          ((env.heights j + env.innerHeight - 1) / env.innerHeight)) with
      | Except.ok tr => some (true, Event.mkdir dir :: (tr ++ [Event.closePage]))
      | Except.error tr =>
        some (false, Event.mkdir dir ::
          (tr ++ (if setupLen cfg ≤ tr.length then [Event.closePage] else []))) := by
  simp [capture_multiple_pages, hm, hv, hpre, hne]

theorem autoPlan_body (cfg : Config) (env : PageEnv) (fuel : Nat) (url path : String) :
    capturePlanBody cfg env fuel true url path = some (autoPlan cfg env url path) := rfl

theorem autoPlan_no_fullpage (cfg : Config) (env : PageEnv) (url path q : String) :
    Event.screenshot q true ∉ autoPlan cfg env url path := by
  unfold autoPlan adjustPlan setupPlan
  by_cases hc : cfg.enable_request_throttling <;> simp [hc]

theorem scrollLoop_bounded_total (heights : Nat → Nat) (vh : Nat) (sd : Rat) (B : Nat)
    (hvh : 0 < vh) (hB : ∀ i, heights i ≤ B) :
    ∀ fuel pos i, B ≤ pos + fuel * vh →
      ∃ evs p last, scrollLoop heights vh sd fuel pos i = some (evs, p, last) ∧
        heights last ≤ p := by
  intro fuel
  induction fuel with
  | zero =>
    intro pos i hle
    have hnp : ¬ pos < heights i := by have := hB i; omega
    refine ⟨[], pos, i, ?_, ?_⟩
    · simp only [scrollLoop]
      rw [if_neg hnp]
    · omega
  | succ m ih =>
    intro pos i hle
    have hmul : (m + 1) * vh = m * vh + vh := Nat.succ_mul m vh
    by_cases hlt : pos < heights i
    · obtain ⟨evs, p, last, heq, hend⟩ := ih (pos + vh) (i + 1) (by omega)
      refine ⟨Event.scrollTo (pos + vh) :: Event.sleep sd :: evs, p, last, ?_, hend⟩
      simp only [scrollLoop]
      rw [if_pos hlt, heq]
    · refine ⟨[], pos, i, ?_, ?_⟩
      · simp only [scrollLoop]
        rw [if_neg hlt]
      · omega

theorem runFail_none (plan : List Event) : runFail none plan = Except.ok plan := rfl

theorem runFail_some_lt (k : Nat) (plan : List Event) (hk : k < plan.length) :
    runFail (some k) plan = Except.error (plan.take k) := by
  simp [runFail, hk]

/-! ### Claim theorems -/

/-- C1: a completed multi-page capture of a valid URL computes
`num_pages` as the ceiling of `total_height / viewport_height`, captures
exactly the files `page_1.png .. page_{num_pages}.png` of the output
directory in order, and sleeps `page_delay` before capturing every page
except the first (exactly `num_pages - 1` pacing delays). -/
theorem capture_multiple_pages_pagination (cfg : Config) (env : PageEnv) (fuel : Nat)
    (url dir : String) (evs : List Event) (j : Nat)
    (hm : env.mkdirOk = true) (hv : isValidUrl url = true)
    (hs : scrollAndLoad cfg env fuel = some (evs, j)) (hvh : 0 < env.innerHeight) :
    paginationSpec cfg env fuel url dir evs j := by
  have hne : env.innerHeight ≠ 0 := Nat.pos_iff_ne_zero.mp hvh
  have hpre : multiPagePre cfg env fuel url =
      some (setupPlan cfg false ++ [Event.goto url, Event.waitNetworkIdle] ++ evs, j) := by
    simp [multiPagePre, hs]
  unfold paginationSpec
  refine ⟨?_, ceil_le (env.heights j) env.innerHeight hvh, ?_,
    screenshotPaths_multiPageLoop cfg env.innerHeight dir _, ?_,
    countPacing_multiPageLoop cfg env.innerHeight dir _, rfl, ?_⟩
  · rw [capture_multiple_pages_eq cfg env fuel none url dir _ j hm hv hpre hne]
    simp [runFail, List.append_assoc]
  · rcases Nat.eq_zero_or_pos (env.heights j) with h0 | hpos
    · exact Or.inl h0
    · exact Or.inr (ceil_pred_lt _ _ hvh hpos)
  · rw [screenshotPaths_append, screenshotPaths_append, setupPlan_no_shots,
      scrollAndLoad_no_shots cfg env fuel evs j hs]
    rfl
  · intro k hk
    unfold pageChunk
    rw [if_pos hk]
    rfl

/-- C2: a capture call that resolves to auto-adjust issues a viewport-only
capture with the viewport set to the measured page dimensions clamped by
the configured maxima before the capture (and never a full-document
capture, in any run); without auto-adjust the capture issued is a
full-document capture. -/
theorem capture_auto_adjust_mode (cfg : Config) (env : PageEnv) (fuel : Nat)
    (failAt : Option Nat) (url path : String) (autoAdj : Option Bool)
    (hv : isValidUrl url = true) :
    autoAdjustSpec cfg env fuel failAt url path autoAdj := by
  constructor
  · intro h1
    have hp : capturePlanBody cfg env fuel (autoAdj.getD cfg.viewport_auto_adjust) url path =
        some (autoPlan cfg env url path) := by
      rw [h1]
      exact autoPlan_body cfg env fuel url path
    constructor
    · rw [capture_eq cfg env fuel none url path autoAdj _ hv hp]
      simp [runFail, autoPlan, adjustPlan, List.append_assoc]
    · intro b tr hcap q
      rw [capture_eq cfg env fuel failAt url path autoAdj _ hv hp] at hcap
      cases hr : runFail failAt (autoPlan cfg env url path) with
      | ok l =>
        rw [hr] at hcap
        injection hcap with hcap
        injection hcap with hb htr
        subst htr
        have hl := runFail_ok_eq _ _ _ hr
        subst hl
        intro hmem
        rcases List.mem_append.mp hmem with hmem | hmem
        · exact autoPlan_no_fullpage cfg env url path q hmem
        · simp at hmem
      | error l =>
        rw [hr] at hcap
        injection hcap with hcap
        injection hcap with hb htr
        subst htr
        obtain ⟨k, rfl⟩ := runFail_error_take _ _ _ hr
        intro hmem
        rcases List.mem_append.mp hmem with hmem | hmem
        · rcases List.mem_append.mp hmem with hmem | hmem
          · exact autoPlan_no_fullpage cfg env url path q
              (List.take_subset k (autoPlan cfg env url path) hmem)
          · simp at hmem
        · split at hmem <;> simp at hmem
  · intro h2 evs j hs
    have hp : capturePlanBody cfg env fuel (autoAdj.getD cfg.viewport_auto_adjust) url path =
        some (setupPlan cfg false ++ [Event.goto url, Event.waitNetworkIdle] ++ evs ++
          [Event.waitNetworkIdle, Event.waitTimeout cfg.final_wait,
           Event.screenshot path true]) := by
      rw [h2]
      simp [capturePlanBody, stabilizePlan, hs, List.append_assoc]
    rw [capture_eq cfg env fuel none url path autoAdj _ hv hp]
    simp [runFail, List.append_assoc]

/-- C3: on a valid URL, an exception at any browser operation of a single
`capture` run is caught: the result is `false`, a blank 800x600 white
image is written to the requested output path, and (the interpreter being
total) nothing propagates to the caller. -/
theorem capture_error_blank_fallback (cfg : Config) (env : PageEnv) (fuel k : Nat)
    (url path : String) (autoAdj : Option Bool) (plan : List Event)
    (hv : isValidUrl url = true)
    (hp : capturePlanBody cfg env fuel (autoAdj.getD cfg.viewport_auto_adjust) url path =
      some plan)
    (hk : k < plan.length) :
    ∃ tr, capture cfg env fuel (some k) url path autoAdj = some (false, tr)
      ∧ Event.createBlank path 800 600 whiteColor ∈ tr := by
  refine ⟨plan.take k ++ [Event.createBlank path 800 600 whiteColor] ++
    (if setupLen cfg ≤ (plan.take k).length then [Event.closePage] else []), ?_, by simp⟩
  rw [capture_eq cfg env fuel (some k) url path autoAdj plan hv hp]
  simp [runFail, hk]

/-- C4: on an invalid URL, `capture` performs no browser operation at all,
writes exactly one blank 800x600 white image at the requested output
path, and returns `false`. -/
theorem capture_invalid_url_blank (cfg : Config) (env : PageEnv) (fuel : Nat)
    (failAt : Option Nat) (url path : String) (autoAdj : Option Bool)
    (hv : isValidUrl url = false) :
    capture cfg env fuel failAt url path autoAdj =
      some (false, [Event.createBlank path 800 600 whiteColor]) := by
  simp [capture, hv]

/-- C5: in multi-page mode a blank image is written only on an invalid URL
(one blank `page_1`, result `false`); an exception during preparation,
stabilization or per-page capture of a valid URL aborts the whole
operation with `false`, no blank-image substitution anywhere in the trace,
and the screenshots already taken form a prefix of the planned
`page_1..page_n` outputs (none deleted, none synthesized). -/
theorem multi_page_error_policy (cfg : Config) (env : PageEnv) (fuel : Nat)
    (url dir : String) : multiPageFailSpec cfg env fuel url dir := by
  constructor
  · intro failAt hinv hm
    simp [capture_multiple_pages, hm, hinv]
  · intro pre j k hm hv hpre hvh hk
    have hne : env.innerHeight ≠ 0 := Nat.pos_iff_ne_zero.mp hvh
    refine ⟨Event.mkdir dir ::
      ((pre ++ multiPageLoop cfg env.innerHeight dir
          ((env.heights j + env.innerHeight - 1) / env.innerHeight)).take k ++
        (if setupLen cfg ≤
            ((pre ++ multiPageLoop cfg env.innerHeight dir
              ((env.heights j + env.innerHeight - 1) / env.innerHeight)).take k).length
          then [Event.closePage] else [])), ?_, ?_, ?_⟩
    · rw [capture_multiple_pages_eq cfg env fuel (some k) url dir pre j hm hv hpre hne,
        runFail_some_lt k _ hk]
    · intro e he
      simp only [List.mem_cons, List.mem_append] at he
      rcases he with rfl | he | he
      · rfl
      · have hmem := List.take_subset k _ he
        rcases List.mem_append.mp hmem with hmem | hmem
        · exact multiPagePre_no_blank cfg env fuel url pre j hpre e hmem
        · exact multiPageLoop_no_blank cfg env.innerHeight dir _ e hmem
      · split at he <;> simp at he
        subst he
        rfl
    · have h1 : screenshotPaths (Event.mkdir dir ::
          ((pre ++ multiPageLoop cfg env.innerHeight dir
              ((env.heights j + env.innerHeight - 1) / env.innerHeight)).take k ++
            (if setupLen cfg ≤
                ((pre ++ multiPageLoop cfg env.innerHeight dir
                  ((env.heights j + env.innerHeight - 1) / env.innerHeight)).take k).length
              then [Event.closePage] else []))) =
          screenshotPaths ((pre ++ multiPageLoop cfg env.innerHeight dir
            ((env.heights j + env.innerHeight - 1) / env.innerHeight)).take k) := by
        rw [screenshotPaths, List.filterMap_cons]
        rw [List.filterMap_append]
        have h2 : List.filterMap shotPath
            (if setupLen cfg ≤
                ((pre ++ multiPageLoop cfg env.innerHeight dir
                  ((env.heights j + env.innerHeight - 1) / env.innerHeight)).take k).length
              then [Event.closePage] else []) = [] := by
          split <;> rfl
        rw [h2, List.append_nil]
        rfl
      rw [h1]
      have h3 : screenshotPaths ((pre ++ multiPageLoop cfg env.innerHeight dir
          ((env.heights j + env.innerHeight - 1) / env.innerHeight)).take k) <+:
          screenshotPaths (pre ++ multiPageLoop cfg env.innerHeight dir
            ((env.heights j + env.innerHeight - 1) / env.innerHeight)) :=
        isPrefix_filterMap shotPath (List.take_prefix k _)
      rw [screenshotPaths_append, multiPagePre_no_shots cfg env fuel url pre j hpre,
        screenshotPaths_multiPageLoop, List.nil_append] at h3
      exact h3

/-- C7: the per-call auto-adjust override fully determines the capture
mode; an instance default only matters when the override is absent, so a
call with an explicit override behaves identically to a call without one
on an instance configured with that override as its default. -/
theorem capture_override_equiv (cfg : Config) (env : PageEnv) (fuel : Nat)
    (failAt : Option Nat) (url path : String) (a b : Bool) :
    capture { cfg with viewport_auto_adjust := a } env fuel failAt url path (some b) =
      capture { cfg with viewport_auto_adjust := b } env fuel failAt url path none := rfl

/-- C9: the incremental-scroll loop of `_scroll_and_load` terminates for
every page whose re-measured document heights stay within a bound `B`
(given a positive viewport height), exiting exactly when the scroll
offset reaches or exceeds the most recently measured total height. -/
theorem scroll_loop_terminates (heights : Nat → Nat) (vh B : Nat) (sd : Rat)
    (hvh : 0 < vh) (hB : ∀ i, heights i ≤ B) :
    ∃ evs pos last, scrollLoop heights vh sd (B / vh + 1) 0 0 = some (evs, pos, last)
      ∧ heights last ≤ pos := by
  have hdm := Nat.div_add_mod B vh
  have hmod : B % vh < vh := Nat.mod_lt _ hvh
  have h2 : (B / vh + 1) * vh = vh * (B / vh) + vh := by
    rw [Nat.succ_mul, Nat.mul_comm]
  exact scrollLoop_bounded_total heights vh sd B hvh hB (B / vh + 1) 0 0 (by omega)

/-- C10: when the measured total document height is zero (and the viewport
height positive), the computed page count is zero, so a multi-page capture
of a valid URL writes no page image at all and still returns `true`. -/
theorem multi_page_zero_height (cfg : Config) (env : PageEnv) (fuel : Nat)
    (url dir : String) (pre : List Event) (j : Nat)
    (hm : env.mkdirOk = true) (hv : isValidUrl url = true)
    (hpre : multiPagePre cfg env fuel url = some (pre, j))
    (hth : env.heights j = 0) (hvh : 0 < env.innerHeight) :
    ∃ tr, capture_multiple_pages cfg env fuel none url dir = some (true, tr)
      ∧ screenshotPaths tr = [] := by
  have hne : env.innerHeight ≠ 0 := Nat.pos_iff_ne_zero.mp hvh
  have hn : (env.heights j + env.innerHeight - 1) / env.innerHeight = 0 := by
    rw [hth]
    exact Nat.div_eq_of_lt (by omega)
  refine ⟨Event.mkdir dir :: ((pre ++ multiPageLoop cfg env.innerHeight dir
      ((env.heights j + env.innerHeight - 1) / env.innerHeight)) ++ [Event.closePage]),
    ?_, ?_⟩
  · rw [capture_multiple_pages_eq cfg env fuel none url dir pre j hm hv hpre hne,
      runFail_none]
  · rw [screenshotPaths, List.filterMap_eq_nil_iff]
    intro e he
    rcases List.mem_cons.mp he with rfl | he
    · rfl
    rcases List.mem_append.mp he with he | he
    · rcases List.mem_append.mp he with he | he
      · have h1 := multiPagePre_no_shots cfg env fuel url pre j hpre
        rw [screenshotPaths, List.filterMap_eq_nil_iff] at h1
        exact h1 e he
      · rw [hn, multiPageLoop] at he
        exact absurd he (by simp)
    · rw [List.mem_singleton] at he
      subst he
      rfl

/-- C6 counterexample: on the input `http://@` the validator returns
`true` although the parsed host component is empty, refuting the claimed
equivalence with "non-empty scheme in {http, https} and non-empty host". -/
theorem is_valid_url_host_counterexample :
    ¬ (isValidUrl atUrl = true ↔
        ((urlsplitCore atUrl.data).isSome ∧
         (urlSchemeOf atUrl = httpChars ∨ urlSchemeOf atUrl = httpsChars) ∧
         urlHost atUrl ≠ [])) := by decide

/-- C6 (amended): the validator returns `true` iff the string parses
without error into a URL whose scheme is `http` or `https` and whose
network-location (authority) component is non-empty.  (The validator is a
pure total function: no network access, and parse failures yield `false`
rather than an exception.) -/
theorem is_valid_url_iff_scheme_netloc (s : String) :
    isValidUrl s = true ↔
      ∃ p, urlsplitCore s.data = some p ∧
        (p.scheme = httpChars ∨ p.scheme = httpsChars) ∧ p.netloc ≠ [] := by
  cases h : urlsplitCore s.data with
  | none =>
    constructor
    · intro hvp
      simp only [isValidUrl, h] at hvp
      exact Bool.noConfusion hvp
    · rintro ⟨q, hq, _, _⟩
      exact Option.noConfusion hq
  | some p =>
    constructor
    · intro hvp
      simp only [isValidUrl, h] at hvp
      by_cases hc : p.scheme ≠ [] ∧ p.netloc ≠ [] ∧
          (p.scheme = httpChars ∨ p.scheme = httpsChars)
      · exact ⟨p, rfl, hc.2.2, hc.2.1⟩
      · rw [if_neg hc] at hvp
        exact Bool.noConfusion hvp
    · rintro ⟨q, hq, hsch, hnet⟩
      injection hq with hq
      subst hq
      simp only [isValidUrl, h]
      have hne : p.scheme ≠ [] := by
        rcases hsch with h1 | h1 <;> rw [h1] <;> decide
      rw [if_pos ⟨hne, hnet, hsch⟩]

/-- C8: `_flatten_config` contradicts the defaults declared on the
`ScreenShotConfig` dataclass: with a `browser` section lacking `headless`
the resolved value is the integer 60000 (not the declared `true`), and
with a `throttling` section lacking `enable_request_throttling` the
resolved value is `true` (not the declared `false`). -/
theorem flatten_config_default_bug :
    resolveConfig [(("browser"), [])] ("headless") = some (YVal.i 60000) ∧
    dataclassDefault ("headless") = some (YVal.b true) ∧
    resolveConfig [(("throttling"), [])] ("enable_request_throttling") = some (YVal.b true) ∧
    dataclassDefault ("enable_request_throttling") = some (YVal.b false) := by
  refine ⟨?_, ?_, ?_, ?_⟩ <;> rfl

/-! ### Witnesses -/

/-- C1 witness: the specification's worked example, a 2500-pixel page with
a 1000-pixel viewport. -/
theorem capture_multiple_pages_pagination_witness :
    wEnv.mkdirOk = true ∧ isValidUrl exUrl = true ∧
    scrollAndLoad defCfg wEnv 5 = some (c1evs, 4) ∧ 0 < wEnv.innerHeight ∧
    paginationSpec defCfg wEnv 5 exUrl exDir c1evs 4 :=
  ⟨rfl, by decide, by decide, by decide,
   capture_multiple_pages_pagination defCfg wEnv 5 exUrl exDir c1evs 4 rfl (by decide)
     (by decide) (by decide)⟩

/-- C2 witness: a valid URL captured with an explicit auto-adjust
override. -/
theorem capture_auto_adjust_mode_witness :
    isValidUrl exUrl = true ∧ autoAdjustSpec defCfg wEnv 1 none exUrl exPath (some true) :=
  ⟨by decide, capture_auto_adjust_mode defCfg wEnv 1 none exUrl exPath (some true) (by decide)⟩

/-- C3 witness: a failure injected at the very first browser operation of
an auto-adjusted single capture. -/
theorem capture_error_blank_fallback_witness :
    isValidUrl exUrl = true ∧
    capturePlanBody defCfg wEnv 1 ((some true).getD defCfg.viewport_auto_adjust)
      exUrl exPath = some c3plan ∧
    0 < c3plan.length ∧
    (∃ tr, capture defCfg wEnv 1 (some 0) exUrl exPath (some true) = some (false, tr)
      ∧ Event.createBlank exPath 800 600 whiteColor ∈ tr) :=
  ⟨by decide, by decide, by decide,
   capture_error_blank_fallback defCfg wEnv 1 0 exUrl exPath (some true) c3plan
     (by decide) (by decide) (by decide)⟩

/-- C4 witness: an input with no scheme. -/
theorem capture_invalid_url_blank_witness :
    isValidUrl badUrl = false ∧
    capture defCfg wEnv 0 none badUrl exPath none =
      some (false, [Event.createBlank exPath 800 600 whiteColor]) :=
  ⟨by decide, capture_invalid_url_blank defCfg wEnv 0 none badUrl exPath none (by decide)⟩

/-- C5 witness: the invalid-URL blank `page_1` on one instance, and an
injected failure at operation 2 of a valid three-page capture on
another. -/
theorem multi_page_error_policy_witness :
    (capture_multiple_pages defCfg wEnv 0 none badUrl exDir =
      some (false, [Event.mkdir exDir,
        Event.createBlank (pageName exDir 1) 800 600 whiteColor]))
    ∧ (∃ tr, capture_multiple_pages defCfg wEnv 5 (some 2) exUrl exDir = some (false, tr)
        ∧ (∀ e ∈ tr, isBlankEvent e = false)
        ∧ screenshotPaths tr <+:
            (List.range ((wEnv.heights 4 + wEnv.innerHeight - 1) / wEnv.innerHeight)).map
              (fun i => pageName exDir (i + 1))) :=
  ⟨(multi_page_error_policy defCfg wEnv 0 badUrl exDir).1 none (by decide) rfl,
   (multi_page_error_policy defCfg wEnv 5 exUrl exDir).2 c5pre 4 2 rfl (by decide)
     (by decide) (by decide) (by decide)⟩

/-- C9 witness: a page whose height oscillates among 4, 5, 6 with a
2-pixel viewport. -/
theorem scroll_loop_terminates_witness :
    0 < 2 ∧ (∀ i, oscHeights i ≤ 6) ∧
    (∃ evs pos last, scrollLoop oscHeights 2 1 (6 / 2 + 1) 0 0 = some (evs, pos, last)
      ∧ oscHeights last ≤ pos) :=
  ⟨by decide, fun i => by simp only [oscHeights]; omega,
   scroll_loop_terminates oscHeights 2 6 1 (by decide)
     (fun i => by simp only [oscHeights]; omega)⟩

/-- C10 witness: a valid URL whose measured document height is zero. -/
theorem multi_page_zero_height_witness :
    zEnv.mkdirOk = true ∧ isValidUrl exUrl = true ∧
    multiPagePre defCfg zEnv 1 exUrl = some (zpre, 1) ∧
    zEnv.heights 1 = 0 ∧ 0 < zEnv.innerHeight ∧
    (∃ tr, capture_multiple_pages defCfg zEnv 1 none exUrl exDir = some (true, tr)
      ∧ screenshotPaths tr = []) :=
  ⟨rfl, by decide, by decide, rfl, by decide,
   multi_page_zero_height defCfg zEnv 1 exUrl exDir zpre 1 rfl (by decide) (by decide)
     rfl (by decide)⟩

end WebShot
